import Mathlib

/-!
# Verification of the ssh-mcp-go-jsonrpc MCP server stack

Shallow embedding of the JSON-RPC / MCP message handling of the stdio
server (`pkg/server/server.go`, `MCPServer`), the HTTP/SSE server
(`pkg/server/sse_server.go`, `SSEServer`), and the SSH layer
(`pkg/ssh/client.go`, `Client`): connection pool, authentication method
selection and command execution.

Go's `encoding/json` semantics are mirrored where the handlers rely on
them: unmarshalling an object into a struct leaves missing fields at
their zero value, ignores unknown keys, treats JSON `null` as a no-op,
and fails on a type mismatch.  JSON values are modelled by `JValue`
(numbers as `Int`: the arguments relevant here are integers), durations
in whole seconds as `Nat`.
-/

namespace SSHMCP

/-- A JSON value, as decoded by `encoding/json` into `interface\x7b\x7d`. -/
inductive JValue where
  | null
  | bool (b : Bool)
  | num (n : Int)
  | str (s : String)
  | arr (elems : List JValue)
  | obj (fields : List (String × JValue))

/-- Map lookup on a decoded JSON object (`args["key"]`). -/
def lookupField (fields : List (String × JValue)) (key : String) : Option JValue :=
  match fields.find? (fun kv => kv.fst == key) with
  | some kv => some kv.snd
  | none => none

/-! ## JSON-RPC error codes (`pkg/types/mcp.go`) -/

def ParseError : Int := -32700
def InvalidRequest : Int := -32600
def MethodNotFound : Int := -32601
def InvalidParams : Int := -32602
def InternalError : Int := -32603
def ServerError : Int := -32000

/-! ## Envelope types (`pkg/types/mcp.go`) -/

/-- `types.MCPRequest`.  `id = none` models an absent (or `null`) `id`
field, i.e. a notification. -/
structure MCPRequest where
  jsonrpc : String
  id : Option JValue
  method : String
  params : Option JValue

/-- `types.MCPError`. -/
structure MCPErr where
  code : Int
  message : String

/-- Result payloads the two servers produce. -/
structure ToolCallResult where
  contentTexts : List String
  isError : Bool

inductive ResultPayload where
  | initializeResult (protocolVersion serverName serverVersion : String)
  | toolsListResult (toolNames : List String)
  | toolCallResult (r : ToolCallResult)

/-- `types.MCPResponse`: one frame written on the wire (stdio line or
SSE `message` event). -/
structure MCPResponse where
  id : Option JValue
  result : Option ResultPayload
  error : Option MCPErr

/-- `sendResponse`. -/
def okResponse (id : Option JValue) (payload : ResultPayload) : MCPResponse :=
  { id := id, result := some payload, error := none }

/-- `sendError`. -/
def errorResponse (id : Option JValue) (code : Int) (message : String) : MCPResponse :=
  { id := id, result := none, error := some { code := code, message := message } }

/-! ## Decoding tool arguments (Go `json.Unmarshal` into the param structs) -/

/-- Decode one string-typed struct field: absent or `null` gives the zero
value `""`, a JSON string gives its value, anything else is a type
mismatch error. -/
def decodeStringField (fields : List (String × JValue)) (key : String) :
    Except String String :=
  match lookupField fields key with
  | none => .ok ""
  | some JValue.null => .ok ""
  | some (JValue.str s) => .ok s
  | some _ => .error ("cannot unmarshal value into string field " ++ key)

/-- Decode one int-typed struct field: absent or `null` gives `0`. -/
def decodeIntField (fields : List (String × JValue)) (key : String) :
    Except String Int :=
  match lookupField fields key with
  | none => .ok 0
  | some JValue.null => .ok 0
  | some (JValue.num n) => .ok n
  | some _ => .error ("cannot unmarshal value into int field " ++ key)

/-- `types.SSHExecuteParams`. -/
structure SSHExecuteParams where
  host : String
  command : String
  user : String
  port : Int
  timeout : Int
  password : String

/-- Unmarshal of a `map[string]interface\x7b\x7d` into `SSHExecuteParams`
(fields `host`, `command`, `user`, `port`, `timeout`, `password`). -/
def decodeSSHExecuteParams (args : List (String × JValue)) :
    Except String SSHExecuteParams := do
  let host ← decodeStringField args "host"
  let command ← decodeStringField args "command"
  let user ← decodeStringField args "user"
  let port ← decodeIntField args "port"
  let timeout ← decodeIntField args "timeout"
  let password ← decodeStringField args "password"
  pure { host := host, command := command, user := user, port := port,
         timeout := timeout, password := password }

/-- `types.SSHFileTransferParams` (JSON tags `host`, `localPath`,
`remotePath`, `user`, `port`, `direction`). -/
structure SSHFileTransferParams where
  host : String
  localPath : String
  remotePath : String
  user : String
  port : Int
  direction : String

def decodeSSHFileTransferParams (args : List (String × JValue)) :
    Except String SSHFileTransferParams := do
  let host ← decodeStringField args "host"
  let localPath ← decodeStringField args "localPath"
  let remotePath ← decodeStringField args "remotePath"
  let user ← decodeStringField args "user"
  let port ← decodeIntField args "port"
  let direction ← decodeStringField args "direction"
  pure { host := host, localPath := localPath, remotePath := remotePath,
         user := user, port := port, direction := direction }

/-- `types.ToolCallParams`: `name` plus raw `arguments` object. -/
structure ToolCallParams where
  name : String
  arguments : List (String × JValue)

/-- Unmarshal of `request.Params` into `ToolCallParams`.  A `nil`
`Params` is skipped by `handleToolsCall` and leaves the zero value. -/
def decodeToolCallParams : Option JValue → Except String ToolCallParams
  | none => .ok { name := "", arguments := [] }
  | some JValue.null => .ok { name := "", arguments := [] }
  | some (JValue.obj fields) => do
      let name ← decodeStringField fields "name"
      let args ←
        match lookupField fields "arguments" with
        | none => .ok []
        | some JValue.null => .ok []
        | some (JValue.obj a) => .ok a
        | some _ => Except.error "cannot unmarshal value into arguments field"
      pure { name := name, arguments := args }
  | some _ => .error "cannot unmarshal params into ToolCallParams"

/-- Unmarshal of `request.Params` into `types.InitializeParams`
(`protocolVersion`, `capabilities`, `clientInfo`); only the field types
are checked, which is all `handleInitialize` can fail on. -/
def decodeInitializeParams : Option JValue → Except String Unit
  | none => .ok ()
  | some JValue.null => .ok ()
  | some (JValue.obj fields) => do
      _ ← decodeStringField fields "protocolVersion"
      match lookupField fields "capabilities" with
      | none => pure ()
      | some JValue.null => pure ()
      | some (JValue.obj _) => pure ()
      | some _ => Except.error "cannot unmarshal capabilities"
      match lookupField fields "clientInfo" with
      | none => pure ()
      | some JValue.null => pure ()
      | some (JValue.obj ci) => do
          _ ← decodeStringField ci "name"
          _ ← decodeStringField ci "version"
          pure ()
      | some _ => Except.error "cannot unmarshal clientInfo"
  | some _ => .error "cannot unmarshal params into InitializeParams"

/-! ## SSH layer (`pkg/ssh/client.go`) -/

/-- `ssh.Config` (the pool's configuration).  `timeoutSeconds` models the
`Timeout time.Duration` field in whole seconds. -/
structure SSHClientConfig where
  defaultUser : String
  defaultPort : Int
  timeoutSeconds : Nat
  keyFile : String
  knownHostsFile : String
  maxConnections : Nat

/-- `ssh.ConnectionInfo`.  Note: it has no timeout field. -/
structure ConnectionInfo where
  host : String
  port : Int
  user : String
  password : String
  keyFile : String

/-- `ssh.ExecuteResult` (duration in whole seconds). -/
structure ExecuteResult where
  command : String
  exitCode : Int
  stdout : String
  stderr : String
  durationSec : Nat

/-- An SSH authentication method as appended by `getAuthMethods`
(`ssh.Password`, `ssh.PublicKeys` for the key at the given path,
`ssh.PublicKeysCallback` backed by the agent). -/
inductive AuthMethod where
  | password (secret : String)
  | publicKey (path : String)
  | agentCallback

/-- Environment the SSH auth code consults: `os.UserHomeDir`,
`os.ReadFile` on the key path, `ssh.ParsePrivateKey` on the key data,
and whether dialing `$SSH_AUTH_SOCK` succeeds. -/
structure AuthEnv where
  homeDirRes : Except String String
  readFileRes : String → Except String String
  parseKeyRes : String → Except String Unit
  agentAvailable : Bool

/-- Go's `keyFile[0] == '~'` check (the caller guarantees a non-empty
path). -/
def startsWithTilde (s : String) : Bool :=
  match s.data with
  | c :: _ => c == '~'
  | [] => false

/-- Tilde expansion done by `getAuthMethods`:
`filepath.Join(homeDir, keyFile[2:])` when the path starts with `~`. -/
def expandKeyPath (homeDir keyFile : String) : String :=
  homeDir ++ "/" ++ (keyFile.drop 2)

/-- The private-key branch of `getAuthMethods`: expand `~`, read the
file, parse the key. -/
def loadKeyMethod (env : AuthEnv) (keyFile : String) :
    Except String AuthMethod :=
  let pathRes : Except String String :=
    if startsWithTilde keyFile then
      match env.homeDirRes with
      | .error e => .error ("获取用户主目录失败: " ++ e)
      | .ok home => .ok (expandKeyPath home keyFile)
    else .ok keyFile
  match pathRes with
  | .error e => .error e
  | .ok path =>
    match env.readFileRes path with
    | .error e => .error ("读取私钥文件失败: " ++ e)
    | .ok keyData =>
      match env.parseKeyRes keyData with
      | .error e => .error ("解析私钥失败: " ++ e)
      | .ok _ => .ok (AuthMethod.publicKey path)

/-- `Client.getAuthMethods`: password first (if provided), then one
private key (argument path, else configured path), then the agent
callback; error when the list ends up empty. -/
def getAuthMethods (cfg : SSHClientConfig) (info : ConnectionInfo)
    (env : AuthEnv) : Except String (List AuthMethod) :=
  let pwMethods : List AuthMethod :=
    if info.password ≠ "" then [AuthMethod.password info.password] else []
  let keyFile := if info.keyFile = "" then cfg.keyFile else info.keyFile
  let withKey : Except String (List AuthMethod) :=
    if keyFile = "" then .ok pwMethods
    else
      match loadKeyMethod env keyFile with
      | .error e => .error e
      | .ok m => .ok (pwMethods ++ [m])
  match withKey with
  | .error e => .error e
  | .ok ms =>
    let ms2 := if env.agentAvailable then ms ++ [AuthMethod.agentCallback] else ms
    if ms2.length = 0 then .error "没有可用的认证方法" else .ok ms2

/-- `Client.createConnection`: host-key setup (load of the configured
known-hosts file may fail), then `getAuthMethods`, then `ssh.Dial`.
`knownHostsLoad` and `dial` are the outcomes of those two external
calls. -/
def createConnection (cfg : SSHClientConfig) (info : ConnectionInfo)
    (env : AuthEnv) (knownHostsLoad : Except String Unit)
    (dial : Except String Unit) : Except String (List AuthMethod) :=
  let hostKey : Except String Unit :=
    if cfg.knownHostsFile ≠ "" then
      match knownHostsLoad with
      | .error e => .error ("加载known_hosts文件失败: " ++ e)
      | .ok _ => .ok ()
    else .ok ()
  match hostKey with
  | .error e => .error e
  | .ok _ =>
    match getAuthMethods cfg info env with
    | .error e => .error ("获取认证方法失败: " ++ e)
    | .ok auth =>
      match dial with
      | .error e => .error ("连接SSH服务器失败: " ++ e)
      | .ok _ => .ok auth

/-! ### Connection pool (`Client.Connect` / `Client.Close`)

The pool `connections map[string]*ssh.Client` is modelled by the list of
its keys; a sequential `Connect` is a step on that list.  The liveness
probe (`isConnectionAlive`) and the outcome of `createConnection` are
inputs of the step. -/

/-- The pool key `fmt.Sprintf("%s@%s:%d", user, host, port)`. -/
def connKey (user host : String) (port : Int) : String :=
  user ++ "@" ++ host ++ ":" ++ toString port

inductive ConnectOutcome where
  | ok (key : String) (reused : Bool)
  | error (msg : String)

/-- The body of `Client.Connect` once the pool key is computed: reuse of
a live pooled client, lazy eviction of a dead one, creation, ceiling
check, insert. -/
def sshConnectWithKey (cfg : SSHClientConfig) (pool : List String)
    (key : String) (aliveProbe : Bool) (create : Except String Unit) :
    List String × ConnectOutcome :=
  if pool.contains key && aliveProbe then
    (pool, .ok key true)
  else
    let pool1 := if pool.contains key then pool.erase key else pool
    match create with
    | .error e => (pool1, .error ("创建SSH连接失败: " ++ e))
    | .ok _ =>
      if cfg.maxConnections ≤ pool1.length then
        (pool1, .error ("已达到最大连接数限制: " ++ toString cfg.maxConnections))
      else
        (pool1 ++ [key], .ok key false)

/-- `Client.Connect`: default filling, key computation, then the keyed
step. -/
def sshConnect (cfg : SSHClientConfig) (pool : List String)
    (info : ConnectionInfo) (aliveProbe : Bool)
    (create : Except String Unit) : List String × ConnectOutcome :=
  let port := if info.port = 0 then cfg.defaultPort else info.port
  let user := if info.user = "" then cfg.defaultUser else info.user
  sshConnectWithKey cfg pool (connKey user info.host port) aliveProbe create

/-- `Client.Close`: closes every client and resets the pool to empty. -/
def sshClose (_pool : List String) : List String := []

/-! ### Command execution (`Client.Execute`) -/

/-- Result of `session.Wait()`. -/
inductive WaitOutcome where
  | success
  | exitError (status : Int)
  | otherFailure (msg : String)

/-- External behaviour governing one `Client.Execute` call: outcomes of
`Connect`, `NewSession`, the two pipe creations and `Start`, how long
the remote command runs, what `Wait` reports, and the captured
output. -/
structure RemoteBehavior where
  connectRes : Except String Unit
  sessionRes : Except String Unit
  stdoutPipeRes : Except String Unit
  stderrPipeRes : Except String Unit
  startRes : Except String Unit
  runSeconds : Nat
  waitRes : WaitOutcome
  stdout : String
  stderr : String

/-- `Client.Execute`.  The deadline is
`context.WithTimeout(c.ctx, c.config.Timeout)` — the pool
configuration's timeout; the function receives no per-call timeout (and
`ConnectionInfo` carries none).  The timeout branch fires when the
command has not completed by `cfg.timeoutSeconds`. -/
def sshExecute (cfg : SSHClientConfig) (b : RemoteBehavior)
    (command : String) : Except String ExecuteResult :=
  match b.connectRes with
  | .error e => .error ("连接SSH服务器失败: " ++ e)
  | .ok _ =>
  match b.sessionRes with
  | .error e => .error ("创建SSH会话失败: " ++ e)
  | .ok _ =>
  match b.stdoutPipeRes with
  | .error e => .error ("创建stdout管道失败: " ++ e)
  | .ok _ =>
  match b.stderrPipeRes with
  | .error e => .error ("创建stderr管道失败: " ++ e)
  | .ok _ =>
  match b.startRes with
  | .error e => .error ("启动命令失败: " ++ e)
  | .ok _ =>
  if cfg.timeoutSeconds ≤ b.runSeconds then
    .error "命令执行超时"
  else
    match b.waitRes with
    | .success =>
        .ok { command := command, exitCode := 0, stdout := b.stdout,
              stderr := b.stderr, durationSec := b.runSeconds }
    | .exitError status =>
        .ok { command := command, exitCode := status, stdout := b.stdout,
              stderr := b.stderr, durationSec := b.runSeconds }
    | .otherFailure e => .error ("命令执行失败: " ++ e)

/-! ## Stdio MCP server (`pkg/server/server.go`) -/

/-- The parts of `config.Config` the request handlers read. -/
structure ServerConfig where
  defaultUser : String
  defaultPort : Int
  timeoutSeconds : Int
  serverName : String
  serverVersion : String
  protocolVersion : String

/-- Abstract SSH execution oracle standing for `s.sshClient.Execute`:
the handlers only see its `(*ExecuteResult, error)` outcome. -/
def SSHExec : Type := ConnectionInfo → String → Except String ExecuteResult

/-- The `%v` rendering of a whole-second `time.Duration`. -/
def durationText (secs : Nat) : String := toString secs ++ "s"

/-- The info text both servers build for a completed `ssh_execute`. -/
def executeInfoText (host command : String) (r : ExecuteResult) : String :=
  "主机: " ++ host ++ "\n命令: " ++ command ++ "\n退出码: " ++
    toString r.exitCode ++ "\n执行时长: " ++ durationText r.durationSec ++ "\n" ++
  (if r.stdout = "" then "" else "标准输出:\n" ++ r.stdout ++ "\n") ++
  (if r.stderr = "" then "" else "标准错误:\n" ++ r.stderr ++ "\n")

/-- The text both servers build for `ssh_file_transfer`. -/
def fileTransferText (direction localPath remotePath host : String) : String :=
  "文件传输完成\n方向: " ++ direction ++ "\n本地路径: " ++ localPath ++
    "\n远程路径: " ++ remotePath ++ "\n主机: " ++ host

/-- The default filling step of `MCPServer.handleSSHExecute`
(`填充默认值`): zero-valued `user`/`port`/`timeout` get the configured
defaults.  It runs after the unmarshal succeeded. -/
def fillSSHExecuteDefaults (cfg : ServerConfig) (p : SSHExecuteParams) :
    SSHExecuteParams :=
  { p with
    user := if p.user = "" then cfg.defaultUser else p.user,
    port := if p.port = 0 then cfg.defaultPort else p.port,
    timeout := if p.timeout = 0 then cfg.timeoutSeconds else p.timeout }

/-- `MCPServer.handleSSHExecute`: decode, fill defaults, call
`sshClient.Execute` with a `ConnectionInfo` (which carries no timeout),
and answer.  SSH-layer failure goes through `sendError` with
`types.ServerError`; a completed command yields a tool result whose
`IsError` is `ExitCode != 0`. -/
def stdioHandleSSHExecute (cfg : ServerConfig) (sshExec : SSHExec)
    (requestID : Option JValue) (args : List (String × JValue)) :
    List MCPResponse :=
  match decodeSSHExecuteParams args with
  | .error _ => [errorResponse requestID InvalidParams "无效的SSH执行参数"]
  | .ok p0 =>
    let p := fillSSHExecuteDefaults cfg p0
    let connInfo : ConnectionInfo :=
      { host := p.host, port := p.port, user := p.user,
        password := p.password, keyFile := "" }
    match sshExec connInfo p.command with
    | .error _ => [errorResponse requestID ServerError "SSH命令执行失败"]
    | .ok r =>
      [okResponse requestID (ResultPayload.toolCallResult
        { contentTexts := [executeInfoText p.host p.command r],
          isError := decide (r.exitCode ≠ 0) })]

/-- `MCPServer.handleSSHFileTransfer`: decode, fill defaults for
`user`/`port`, and return the mock success result; no SSH call is
made. -/
def stdioHandleSSHFileTransfer (cfg : ServerConfig)
    (requestID : Option JValue) (args : List (String × JValue)) :
    List MCPResponse :=
  match decodeSSHFileTransferParams args with
  | .error _ => [errorResponse requestID InvalidParams "无效的SSH文件传输参数"]
  | .ok p =>
    let _user := if p.user = "" then cfg.defaultUser else p.user
    let _port := if p.port = 0 then cfg.defaultPort else p.port
    [okResponse requestID (ResultPayload.toolCallResult
      { contentTexts :=
          [fileTransferText p.direction p.localPath p.remotePath p.host],
        isError := false })]

/-- `MCPServer.handleToolsList`: init gate, then the static manifest. -/
def stdioHandleToolsList (initialized : Bool) (req : MCPRequest) :
    List MCPResponse :=
  if !initialized then
    [errorResponse req.id ServerError "服务器未初始化"]
  else
    [okResponse req.id (ResultPayload.toolsListResult
      ["ssh_execute", "ssh_file_transfer"])]

/-- `MCPServer.handleToolsCall`: init gate, decode `ToolCallParams`,
dispatch on the tool name. -/
def stdioHandleToolsCall (cfg : ServerConfig) (sshExec : SSHExec)
    (initialized : Bool) (req : MCPRequest) : List MCPResponse :=
  if !initialized then
    [errorResponse req.id ServerError "服务器未初始化"]
  else
    match decodeToolCallParams req.params with
    | .error _ => [errorResponse req.id InvalidParams "无效的工具调用参数"]
    | .ok p =>
      match p.name with
      | "ssh_execute" => stdioHandleSSHExecute cfg sshExec req.id p.arguments
      | "ssh_file_transfer" => stdioHandleSSHFileTransfer cfg req.id p.arguments
      | other => [errorResponse req.id MethodNotFound ("未知工具: " ++ other)]

/-- `MCPServer.handleInitialize`. -/
def stdioHandleInitialize (cfg : ServerConfig) (req : MCPRequest) :
    List MCPResponse :=
  match decodeInitializeParams req.params with
  | .error _ => [errorResponse req.id InvalidParams "无效的初始化参数"]
  | .ok _ =>
    [okResponse req.id (ResultPayload.initializeResult
      cfg.protocolVersion cfg.serverName cfg.serverVersion)]

/-- `MCPServer.routeRequest`: dispatch on the method, returning the new
`initialized` flag and the frames written to stdout.
`notifications/initialized` sets the flag and writes nothing. -/
def stdioRouteRequest (cfg : ServerConfig) (sshExec : SSHExec)
    (initialized : Bool) (req : MCPRequest) : Bool × List MCPResponse :=
  match req.method with
  | "initialize" => (initialized, stdioHandleInitialize cfg req)
  | "tools/list" => (initialized, stdioHandleToolsList initialized req)
  | "tools/call" => (initialized, stdioHandleToolsCall cfg sshExec initialized req)
  | "notifications/initialized" => (true, [])
  | other => (initialized, [errorResponse req.id MethodNotFound ("未知方法: " ++ other)])

/-- `MCPServer.handleMessage` after JSON parsing: the version check,
then `routeRequest`. -/
def stdioHandleMessage (cfg : ServerConfig) (sshExec : SSHExec)
    (initialized : Bool) (req : MCPRequest) : Bool × List MCPResponse :=
  if req.jsonrpc ≠ "2.0" then
    (initialized, [errorResponse req.id InvalidRequest "无效的JSON-RPC版本"])
  else
    stdioRouteRequest cfg sshExec initialized req

/-! ## HTTP/SSE MCP server (`pkg/server/sse_server.go`) -/

/-- `SSEServer.executeSSHCommand`: type-asserted argument extraction
with inline defaults, then `sshClient.Execute`. -/
def sseExecuteSSHCommand (cfg : ServerConfig) (sshExec : SSHExec)
    (args : List (String × JValue)) : Except String ToolCallResult :=
  match lookupField args "host" with
  | some (JValue.str host) =>
    match lookupField args "command" with
    | some (JValue.str command) =>
      let user :=
        match lookupField args "user" with
        | some (JValue.str u) => if u = "" then cfg.defaultUser else u
        | _ => cfg.defaultUser
      let port :=
        match lookupField args "port" with
        | some (JValue.num p) => if 0 < p then p else cfg.defaultPort
        | _ => cfg.defaultPort
      let password :=
        match lookupField args "password" with
        | some (JValue.str p) => p
        | _ => ""
      let connInfo : ConnectionInfo :=
        { host := host, port := port, user := user,
          password := password, keyFile := "" }
      match sshExec connInfo command with
      | .error e => .error ("SSH命令执行失败: " ++ e)
      | .ok r =>
        .ok { contentTexts := [executeInfoText host command r],
              isError := decide (r.exitCode ≠ 0) }
    | _ => .error "缺少命令"
  | _ => .error "缺少主机地址"

/-- `SSEServer.executeSSHFileTransfer`: string assertions on the four
arguments, then the mock success result; no SSH call is made. -/
def sseExecuteSSHFileTransfer (args : List (String × JValue)) :
    Except String ToolCallResult :=
  match lookupField args "host" with
  | some (JValue.str host) =>
    match lookupField args "localPath" with
    | some (JValue.str localPath) =>
      match lookupField args "remotePath" with
      | some (JValue.str remotePath) =>
        match lookupField args "direction" with
        | some (JValue.str direction) =>
          .ok { contentTexts :=
                  [fileTransferText direction localPath remotePath host],
                isError := false }
        | _ => .error "缺少传输方向"
      | _ => .error "缺少远程路径"
    | _ => .error "缺少本地路径"
  | _ => .error "缺少主机地址"

/-- `SSEServer.handleToolsCall`: type assertions on `params`, `name`,
`arguments`, then dispatch on the tool name. -/
def sseHandleToolsCall (cfg : ServerConfig) (sshExec : SSHExec)
    (params : Option JValue) : Except String ToolCallResult :=
  match params with
  | some (JValue.obj pm) =>
    match lookupField pm "name" with
    | some (JValue.str toolName) =>
      match lookupField pm "arguments" with
      | some (JValue.obj args) =>
        match toolName with
        | "ssh_execute" => sseExecuteSSHCommand cfg sshExec args
        | "ssh_file_transfer" => sseExecuteSSHFileTransfer args
        | other => .error ("未知工具: " ++ other)
      | _ => .error "无效的参数格式"
    | _ => .error "缺少工具名称"
  | _ => .error "无效的参数格式"

/-- `SSEServer.handleRequest`: no initialization gating; `tools/call`
errors surface as a JSON-RPC error with code `-32000`;
`notifications/initialized` yields `nil` (no response object). -/
def sseHandleRequest (cfg : ServerConfig) (sshExec : SSHExec)
    (req : MCPRequest) : Option MCPResponse :=
  match req.method with
  | "initialize" =>
      some (okResponse req.id (ResultPayload.initializeResult
        "2025-03-26" cfg.serverName cfg.serverVersion))
  | "tools/list" =>
      some (okResponse req.id (ResultPayload.toolsListResult
        ["ssh_execute", "ssh_file_transfer"]))
  | "tools/call" =>
      match sseHandleToolsCall cfg sshExec req.params with
      | .error e => some (errorResponse req.id (-32000) e)
      | .ok r => some (okResponse req.id (ResultPayload.toolCallResult r))
  | "notifications/initialized" => none
  | other => some (errorResponse req.id (-32601) ("方法未找到: " ++ other))

/-- Outcome of one `POST /mcp/message`: the HTTP status and the frames
queued onto the session's SSE channel; `crash` marks the nil-pointer
dereference Go would hit when `handleRequest` returns `nil` for a
message that still carries an `id`. -/
inductive SSEMessageOutcome where
  | http (status : Nat) (sent : List MCPResponse)
  | crash

/-- `SSEServer.handleMessage`: method check, `sessionId` query lookup
(`""` models an absent parameter, as `URL.Query().Get` returns), session
registry lookup, body decoding, request handling, and the
notification/response split on `request.ID`.  The enqueue onto the
session channel is modelled as succeeding (the 5-second channel-full
timeout that answers 408 is a real-time race not represented here). -/
def sseHandleMessage (cfg : ServerConfig) (sshExec : SSHExec)
    (sessions : List String) (httpMethod : String) (sessionId : String)
    (body : Except String MCPRequest) : SSEMessageOutcome :=
  if httpMethod = "OPTIONS" then .http 200 []
  else if httpMethod ≠ "POST" then .http 405 []
  else if sessionId = "" then .http 400 []
  else if !(sessions.contains sessionId) then .http 404 []
  else
    match body with
    | .error _ => .http 400 []
    | .ok req =>
      let response := sseHandleRequest cfg sshExec req
      match req.id with
      | none => .http 200 []
      | some _ =>
        match response with
        | some resp => .http 200 [resp]
        | none => .crash

/-! ## Fixtures for concrete evaluations -/

/-- The shipped default configuration (`config.DefaultConfig`). -/
def testServerConfig : ServerConfig :=
  { defaultUser := "root", defaultPort := 22, timeoutSeconds := 30,
    serverName := "SSH-MCP-Server", serverVersion := "1.0.0",
    protocolVersion := "2025-03-26" }

/-- An SSH oracle no examined code path consults. -/
def unusedExec : SSHExec := fun _ _ => .error "unused"

/-- An SSH oracle whose every call fails at the SSH layer, as on an
authentication or connection failure or a command timeout. -/
def authFailExec : SSHExec := fun _ _ => .error "ssh: unable to authenticate"

/-- A `tools/call` request for `ssh_execute` on host `h`, command `c`. -/
def execCallReq (id : Option JValue) (h c : String) : MCPRequest :=
  { jsonrpc := "2.0", id := id, method := "tools/call",
    params := some (JValue.obj
      [("name", JValue.str "ssh_execute"),
       ("arguments", JValue.obj
         [("host", JValue.str h), ("command", JValue.str c)])]) }

/-- A `tools/call` request for `ssh_file_transfer` with all four
required arguments as strings. -/
def transferCallReq (id : Option JValue) (h l r d : String) : MCPRequest :=
  { jsonrpc := "2.0", id := id, method := "tools/call",
    params := some (JValue.obj
      [("name", JValue.str "ssh_file_transfer"),
       ("arguments", JValue.obj
         [("host", JValue.str h), ("localPath", JValue.str l),
          ("remotePath", JValue.str r), ("direction", JValue.str d)])]) }

/-- A pool configuration with the given command timeout. -/
def mkPoolConfig (timeoutSecs : Nat) : SSHClientConfig :=
  { defaultUser := "root", defaultPort := 22, timeoutSeconds := timeoutSecs,
    keyFile := "", knownHostsFile := "", maxConnections := 10 }

/-- Behaviour of a remote command that sets up cleanly, runs for
`secs` seconds and exits 0 silently. -/
def runBehavior (secs : Nat) : RemoteBehavior :=
  { connectRes := .ok (), sessionRes := .ok (), stdoutPipeRes := .ok (),
    stderrPipeRes := .ok (), startRes := .ok (), runSeconds := secs,
    waitRes := .success, stdout := "", stderr := "" }

/-- The stdio `ssh_execute` handler wired to the modelled SSH layer
(`Client.Execute` as `sshExecute`), as `MCPServer` wires
`s.sshClient.Execute`. -/
def stdioSSHExecuteVia (scfg : SSHClientConfig) (cfg : ServerConfig)
    (b : RemoteBehavior) (requestID : Option JValue)
    (args : List (String × JValue)) : List MCPResponse :=
  stdioHandleSSHExecute cfg (fun _ command => sshExecute scfg b command)
    requestID args

/-- A pool configuration with `max_connections = 1`. -/
def onePoolConfig : SSHClientConfig :=
  { defaultUser := "root", defaultPort := 22, timeoutSeconds := 30,
    keyFile := "", knownHostsFile := "", maxConnections := 1 }

/-- A connection request for a host not yet pooled. -/
def freshInfo : ConnectionInfo :=
  { host := "h2", port := 22, user := "root", password := "", keyFile := "" }

/-- An auth environment with no home directory, no readable key, no
agent: every external auth source absent or failing. -/
def bareAuthEnv : AuthEnv :=
  { homeDirRes := .error "no home", readFileRes := fun _ => .error "no such file",
    parseKeyRes := fun _ => .error "unparseable", agentAvailable := false }

/-- An auth environment where reading and parsing any key succeeds and
the agent socket is reachable. -/
def richAuthEnv : AuthEnv :=
  { homeDirRes := .ok "/home/u", readFileRes := fun _ => .ok "KEYDATA",
    parseKeyRes := fun _ => .ok (), agentAvailable := true }

/-- A connection request carrying a password and an explicit key path. -/
def fullAuthInfo : ConnectionInfo :=
  { host := "h", port := 22, user := "root", password := "pw",
    keyFile := "/k/id_rsa" }

/-- A connection request with no password and no key path anywhere. -/
def noAuthInfo : ConnectionInfo :=
  { host := "h", port := 22, user := "root", password := "", keyFile := "" }

/-! ## Theorems -/

/-- C7: in every tool result returned by a completed `ssh_execute` call,
`isError` is true exactly when the captured remote exit code is
non-zero, on both the stdio server (`handleSSHExecute`) and the
HTTP/SSE server (`executeSSHCommand`). -/
theorem isError_iff_nonzero_exit
    (cfg : ServerConfig) (r : ExecuteResult) (requestID : Option JValue)
    (args : List (String × JValue)) (p : SSHExecuteParams)
    (hdec : decodeSSHExecuteParams args = .ok p)
    (host command : String) (sargs : List (String × JValue))
    (hhost : lookupField sargs "host" = some (JValue.str host))
    (hcmd : lookupField sargs "command" = some (JValue.str command)) :
    stdioHandleSSHExecute cfg (fun _ _ => .ok r) requestID args
      = [okResponse requestID (ResultPayload.toolCallResult
          { contentTexts := [executeInfoText p.host p.command r],
            isError := decide (r.exitCode ≠ 0) })]
    ∧ sseExecuteSSHCommand cfg (fun _ _ => .ok r) sargs
      = .ok { contentTexts := [executeInfoText host command r],
              isError := decide (r.exitCode ≠ 0) } := by
  constructor
  · simp only [stdioHandleSSHExecute, hdec]
    rfl
  · simp only [sseExecuteSSHCommand, hhost, hcmd]

/-- Witness for `isError_iff_nonzero_exit` at the shipped configuration,
a `false`-style command exiting 1, and concrete argument objects. -/
theorem isError_iff_nonzero_exit_witness :
    decodeSSHExecuteParams [("host", JValue.str "h"), ("command", JValue.str "false")]
      = .ok { host := "h", command := "false", user := "", port := 0,
              timeout := 0, password := "" }
    ∧ lookupField [("host", JValue.str "h"), ("command", JValue.str "false")] "host"
      = some (JValue.str "h")
    ∧ lookupField [("host", JValue.str "h"), ("command", JValue.str "false")] "command"
      = some (JValue.str "false")
    ∧ (stdioHandleSSHExecute testServerConfig
        (fun _ _ => .ok { command := "false", exitCode := 1, stdout := "",
                          stderr := "", durationSec := 0 })
        (some (JValue.num 3))
        [("host", JValue.str "h"), ("command", JValue.str "false")]
      = [okResponse (some (JValue.num 3)) (ResultPayload.toolCallResult
          { contentTexts := [executeInfoText "h" "false"
              { command := "false", exitCode := 1, stdout := "",
                stderr := "", durationSec := 0 }],
            isError := decide ((1 : Int) ≠ 0) })]
    ∧ sseExecuteSSHCommand testServerConfig
        (fun _ _ => .ok { command := "false", exitCode := 1, stdout := "",
                          stderr := "", durationSec := 0 })
        [("host", JValue.str "h"), ("command", JValue.str "false")]
      = .ok { contentTexts := [executeInfoText "h" "false"
              { command := "false", exitCode := 1, stdout := "",
                stderr := "", durationSec := 0 }],
              isError := decide ((1 : Int) ≠ 0) }) :=
  ⟨rfl, rfl, rfl,
    isError_iff_nonzero_exit testServerConfig
      { command := "false", exitCode := 1, stdout := "", stderr := "",
        durationSec := 0 }
      (some (JValue.num 3))
      [("host", JValue.str "h"), ("command", JValue.str "false")]
      { host := "h", command := "false", user := "", port := 0,
        timeout := 0, password := "" }
      rfl "h" "false"
      [("host", JValue.str "h"), ("command", JValue.str "false")]
      rfl rfl⟩

/-- C1 (counterexample): a `tools/call` of `ssh_execute` whose SSH layer
fails (here an authentication failure) is answered by the stdio server
with a JSON-RPC *error* object of code `-32000` and no result — not
with a successful response carrying `isError = true`. -/
theorem ssh_failure_answered_with_jsonrpc_error :
    stdioRouteRequest testServerConfig authFailExec true
      (execCallReq (some (JValue.num 3)) "192.0.2.1" "ls")
      = (true, [errorResponse (some (JValue.num 3)) ServerError "SSH命令执行失败"]) := by
  rfl

/-- C1 (amended): for every `tools/call` of `ssh_execute` in which the
SSH layer fails, both servers answer with a JSON-RPC error response of
code `-32000` (`types.ServerError`) and no result; `isError = true` is
reserved for completed commands with non-zero exit code. -/
theorem ssh_failure_error_response
    (cfg : ServerConfig) (msg : String) (requestID : Option JValue)
    (args : List (String × JValue)) (p : SSHExecuteParams)
    (hdec : decodeSSHExecuteParams args = .ok p)
    (host command : String) (sargs : List (String × JValue))
    (hhost : lookupField sargs "host" = some (JValue.str host))
    (hcmd : lookupField sargs "command" = some (JValue.str command))
    (id2 : Option JValue) :
    stdioHandleSSHExecute cfg (fun _ _ => .error msg) requestID args
      = [errorResponse requestID ServerError "SSH命令执行失败"]
    ∧ sseHandleRequest cfg (fun _ _ => .error msg)
        { jsonrpc := "2.0", id := id2, method := "tools/call",
          params := some (JValue.obj
            [("name", JValue.str "ssh_execute"),
             ("arguments", JValue.obj sargs)]) }
      = some (errorResponse id2 (-32000) ("SSH命令执行失败: " ++ msg)) := by
  constructor
  · simp only [stdioHandleSSHExecute, hdec]
  · have hcall : sseExecuteSSHCommand cfg (fun _ _ => .error msg) sargs
        = .error ("SSH命令执行失败: " ++ msg) := by
      simp only [sseExecuteSSHCommand, hhost, hcmd]
    show (match sseExecuteSSHCommand cfg (fun _ _ => .error msg) sargs with
          | .error e => some (errorResponse id2 (-32000) e)
          | .ok r => some (okResponse id2 (ResultPayload.toolCallResult r)))
        = some (errorResponse id2 (-32000) ("SSH命令执行失败: " ++ msg))
    rw [hcall]

/-- Witness for `ssh_failure_error_response` at a concrete failing call. -/
theorem ssh_failure_error_response_witness :
    decodeSSHExecuteParams [("host", JValue.str "h"), ("command", JValue.str "ls")]
      = .ok { host := "h", command := "ls", user := "", port := 0,
              timeout := 0, password := "" }
    ∧ lookupField [("host", JValue.str "h"), ("command", JValue.str "ls")] "host"
      = some (JValue.str "h")
    ∧ lookupField [("host", JValue.str "h"), ("command", JValue.str "ls")] "command"
      = some (JValue.str "ls")
    ∧ (stdioHandleSSHExecute testServerConfig (fun _ _ => .error "auth failed")
        (some (JValue.num 9))
        [("host", JValue.str "h"), ("command", JValue.str "ls")]
      = [errorResponse (some (JValue.num 9)) ServerError "SSH命令执行失败"]
    ∧ sseHandleRequest testServerConfig (fun _ _ => .error "auth failed")
        { jsonrpc := "2.0", id := some (JValue.num 9), method := "tools/call",
          params := some (JValue.obj
            [("name", JValue.str "ssh_execute"),
             ("arguments", JValue.obj
               [("host", JValue.str "h"), ("command", JValue.str "ls")])]) }
      = some (errorResponse (some (JValue.num 9)) (-32000)
          ("SSH命令执行失败: " ++ "auth failed"))) :=
  ⟨rfl, rfl, rfl,
    ssh_failure_error_response testServerConfig "auth failed"
      (some (JValue.num 9))
      [("host", JValue.str "h"), ("command", JValue.str "ls")]
      { host := "h", command := "ls", user := "", port := 0,
        timeout := 0, password := "" }
      rfl "h" "ls"
      [("host", JValue.str "h"), ("command", JValue.str "ls")]
      rfl rfl (some (JValue.num 9))⟩

/-- C10: for every `ssh_file_transfer` invocation whose `host`,
`localPath`, `remotePath` and `direction` arguments are present as
strings, both servers return the mock "文件传输完成" text with
`isError = false`, for every value of `direction`; and the outcome is
independent of the SSH layer (the handlers never consult the SSH
oracle). -/
theorem file_transfer_is_mock
    (cfg : ServerConfig) (ex1 ex2 : SSHExec) (id : Option JValue)
    (h l r d : String) (st : Bool) :
    stdioHandleSSHFileTransfer cfg id
        [("host", JValue.str h), ("localPath", JValue.str l),
         ("remotePath", JValue.str r), ("direction", JValue.str d)]
      = [okResponse id (ResultPayload.toolCallResult
          { contentTexts := [fileTransferText d l r h], isError := false })]
    ∧ sseExecuteSSHFileTransfer
        [("host", JValue.str h), ("localPath", JValue.str l),
         ("remotePath", JValue.str r), ("direction", JValue.str d)]
      = .ok { contentTexts := [fileTransferText d l r h], isError := false }
    ∧ stdioRouteRequest cfg ex1 st (transferCallReq id h l r d)
      = stdioRouteRequest cfg ex2 st (transferCallReq id h l r d)
    ∧ sseHandleRequest cfg ex1 (transferCallReq id h l r d)
      = sseHandleRequest cfg ex2 (transferCallReq id h l r d) := by
  refine ⟨rfl, rfl, ?_, rfl⟩
  cases st <;> rfl

/-- C3 evidence: the per-call `timeout` argument of `ssh_execute` never
reaches the SSH layer.  (1) The stdio pipeline produces the same answer
for any two values of the `timeout` argument; (2) `Client.Execute` cuts
the command off exactly when the *pool configuration's* timeout elapses;
(3) concretely, with the configured 30 s timeout, a call asking for
`timeout = 1` on a command that runs 5 s is not cut off but completes
normally. -/
theorem timeout_argument_ignored :
    (∀ (scfg : SSHClientConfig) (cfg : ServerConfig) (b : RemoteBehavior)
       (id : Option JValue) (host command : String) (t1 t2 : Int),
       stdioSSHExecuteVia scfg cfg b id
           [("host", JValue.str host), ("command", JValue.str command),
            ("timeout", JValue.num t1)]
         = stdioSSHExecuteVia scfg cfg b id
           [("host", JValue.str host), ("command", JValue.str command),
            ("timeout", JValue.num t2)])
    ∧ (∀ (timeoutSecs runSecs : Nat) (command : String),
       sshExecute (mkPoolConfig timeoutSecs) (runBehavior runSecs) command
         = if timeoutSecs ≤ runSecs then .error "命令执行超时"
           else .ok { command := command, exitCode := 0, stdout := "",
                      stderr := "", durationSec := runSecs })
    ∧ stdioSSHExecuteVia (mkPoolConfig 30) testServerConfig (runBehavior 5)
        (some (JValue.num 7))
        [("host", JValue.str "h"), ("command", JValue.str "sleep 5"),
         ("timeout", JValue.num 1)]
      = [okResponse (some (JValue.num 7)) (ResultPayload.toolCallResult
          { contentTexts := [executeInfoText "h" "sleep 5"
              { command := "sleep 5", exitCode := 0, stdout := "",
                stderr := "", durationSec := 5 }],
            isError := false })] := by
  refine ⟨fun scfg cfg b id host command t1 t2 => rfl, fun ts rs command => rfl, rfl⟩

/-- C2 (counterexample): the HTTP/SSE server's `handleRequest` serves a
`tools/list` request with a full result — not a `-32000` "not
initialized" error — even though no `notifications/initialized` has ever
been received (the SSE server keeps no initialization state at all). -/
theorem sse_tools_list_served_before_init :
    sseHandleRequest testServerConfig unusedExec
      { jsonrpc := "2.0", id := some (JValue.num 2), method := "tools/list",
        params := none }
      = some (okResponse (some (JValue.num 2))
          (ResultPayload.toolsListResult ["ssh_execute", "ssh_file_transfer"])) := by
  rfl

/-- C2 (amended): only the stdio server gates on initialization:
`tools/list` and `tools/call` before `notifications/initialized` are
rejected there with `-32000` "服务器未初始化", and its session leaves the
awaiting-init state exactly upon `notifications/initialized`; the
HTTP/SSE server performs no initialization gating and serves
`tools/list` at any time. -/
theorem stdio_init_gating
    (cfg : ServerConfig) (ex : SSHExec) (req : MCPRequest)
    (hm : req.method = "tools/list" ∨ req.method = "tools/call")
    (st : Bool) (req2 : MCPRequest) (id3 : Option JValue) :
    (stdioRouteRequest cfg ex false req).2
      = [errorResponse req.id ServerError "服务器未初始化"]
    ∧ (stdioRouteRequest cfg ex st req2).1
      = (st || (req2.method == "notifications/initialized"))
    ∧ sseHandleRequest cfg ex
        { jsonrpc := "2.0", id := id3, method := "tools/list", params := none }
      = some (okResponse id3
          (ResultPayload.toolsListResult ["ssh_execute", "ssh_file_transfer"])) := by
  refine ⟨?_, ?_, rfl⟩
  · rcases hm with h | h <;>
      simp only [stdioRouteRequest, h, stdioHandleToolsList, stdioHandleToolsCall,
        Bool.not_false, if_true]
  · unfold stdioRouteRequest
    split <;> simp_all

/-- Witness for `stdio_init_gating`: a concrete pre-init `tools/list`
and the `notifications/initialized` transition. -/
theorem stdio_init_gating_witness :
    (({ jsonrpc := "2.0", id := some (JValue.num 2), method := "tools/list",
        params := none } : MCPRequest).method = "tools/list"
      ∨ ({ jsonrpc := "2.0", id := some (JValue.num 2), method := "tools/list",
           params := none } : MCPRequest).method = "tools/call")
    ∧ ((stdioRouteRequest testServerConfig unusedExec false
          { jsonrpc := "2.0", id := some (JValue.num 2), method := "tools/list",
            params := none }).2
        = [errorResponse (some (JValue.num 2)) ServerError "服务器未初始化"]
    ∧ (stdioRouteRequest testServerConfig unusedExec false
          { jsonrpc := "2.0", id := none, method := "notifications/initialized",
            params := none }).1
        = (false || (("notifications/initialized" : String) == "notifications/initialized"))
    ∧ sseHandleRequest testServerConfig unusedExec
        { jsonrpc := "2.0", id := some (JValue.num 2), method := "tools/list",
          params := none }
      = some (okResponse (some (JValue.num 2))
          (ResultPayload.toolsListResult ["ssh_execute", "ssh_file_transfer"]))) :=
  ⟨Or.inl rfl,
    stdio_init_gating testServerConfig unusedExec
      { jsonrpc := "2.0", id := some (JValue.num 2), method := "tools/list",
        params := none }
      (Or.inl rfl) false
      { jsonrpc := "2.0", id := none, method := "notifications/initialized",
        params := none }
      (some (JValue.num 2))⟩

/-- C4 (counterexample): a `tools/call` of `ssh_file_transfer` whose
`direction` is the out-of-enum string `"sideways"` is not rejected with
`-32602`; the initialized stdio server answers it with a success
result. -/
theorem invalid_direction_not_rejected :
    stdioRouteRequest testServerConfig unusedExec true
      (transferCallReq (some (JValue.num 4)) "h" "/a" "/b" "sideways")
      = (true, [okResponse (some (JValue.num 4)) (ResultPayload.toolCallResult
          { contentTexts := [fileTransferText "sideways" "/a" "/b" "h"],
            isError := false })]) := by
  rfl

/-- C4 (amended): the stdio server answers `-32602` exactly when JSON
decoding of the tool arguments fails (a field of the wrong JSON type),
and the `user`/`port`/`timeout` defaults are filled only on the branch
where decoding succeeded; but a missing required field is not rejected —
it decodes to its zero value (the stdio server proceeds with it; the
HTTP/SSE server reports a missing `host` as a `-32000` error, not
`-32602`), and `direction` is never checked against
`{"upload","download"}`: any string yields a success result. -/
theorem argument_validation_partial
    (cfg : ServerConfig) (ex : SSHExec) (id : Option JValue)
    (c h l r d host command password : String)
    (badArgs : List (String × JValue)) (e : String)
    (hdec : decodeSSHExecuteParams badArgs = .error e) :
    stdioHandleSSHExecute cfg ex id [("host", JValue.num 1)]
      = [errorResponse id InvalidParams "无效的SSH执行参数"]
    ∧ decodeSSHExecuteParams [("command", JValue.str c)]
      = .ok { host := "", command := c, user := "", port := 0,
              timeout := 0, password := "" }
    ∧ sseHandleRequest cfg ex
        { jsonrpc := "2.0", id := id, method := "tools/call",
          params := some (JValue.obj
            [("name", JValue.str "ssh_execute"),
             ("arguments", JValue.obj [])]) }
      = some (errorResponse id (-32000) "缺少主机地址")
    ∧ stdioHandleSSHFileTransfer cfg id
        [("host", JValue.str h), ("localPath", JValue.str l),
         ("remotePath", JValue.str r), ("direction", JValue.str d)]
      = [okResponse id (ResultPayload.toolCallResult
          { contentTexts := [fileTransferText d l r h], isError := false })]
    ∧ stdioHandleSSHExecute cfg ex id badArgs
      = [errorResponse id InvalidParams "无效的SSH执行参数"]
    ∧ fillSSHExecuteDefaults cfg
        { host := host, command := command, user := "", port := 0,
          timeout := 0, password := password }
      = { host := host, command := command, user := cfg.defaultUser,
          port := cfg.defaultPort, timeout := cfg.timeoutSeconds,
          password := password } := by
  refine ⟨rfl, rfl, rfl, rfl, ?_, rfl⟩
  simp only [stdioHandleSSHExecute, hdec]

/-- Witness for `argument_validation_partial` with a concrete
type-mismatch argument object. -/
theorem argument_validation_partial_witness :
    decodeSSHExecuteParams [("host", JValue.num 1)]
      = .error "cannot unmarshal value into string field host"
    ∧ (stdioHandleSSHExecute testServerConfig unusedExec (some (JValue.num 5))
        [("host", JValue.num 1)]
      = [errorResponse (some (JValue.num 5)) InvalidParams "无效的SSH执行参数"]
    ∧ decodeSSHExecuteParams [("command", JValue.str "ls")]
      = .ok { host := "", command := "ls", user := "", port := 0,
              timeout := 0, password := "" }
    ∧ sseHandleRequest testServerConfig unusedExec
        { jsonrpc := "2.0", id := some (JValue.num 5), method := "tools/call",
          params := some (JValue.obj
            [("name", JValue.str "ssh_execute"),
             ("arguments", JValue.obj [])]) }
      = some (errorResponse (some (JValue.num 5)) (-32000) "缺少主机地址")
    ∧ stdioHandleSSHFileTransfer testServerConfig (some (JValue.num 5))
        [("host", JValue.str "h"), ("localPath", JValue.str "/a"),
         ("remotePath", JValue.str "/b"), ("direction", JValue.str "upload")]
      = [okResponse (some (JValue.num 5)) (ResultPayload.toolCallResult
          { contentTexts := [fileTransferText "upload" "/a" "/b" "h"],
            isError := false })]
    ∧ stdioHandleSSHExecute testServerConfig unusedExec (some (JValue.num 5))
        [("host", JValue.num 1)]
      = [errorResponse (some (JValue.num 5)) InvalidParams "无效的SSH执行参数"]
    ∧ fillSSHExecuteDefaults testServerConfig
        { host := "h", command := "ls", user := "", port := 0,
          timeout := 0, password := "pw" }
      = { host := "h", command := "ls",
          user := testServerConfig.defaultUser,
          port := testServerConfig.defaultPort,
          timeout := testServerConfig.timeoutSeconds, password := "pw" }) :=
  ⟨rfl,
    argument_validation_partial testServerConfig unusedExec
      (some (JValue.num 5)) "ls" "h" "/a" "/b" "upload" "h" "ls" "pw"
      [("host", JValue.num 1)]
      "cannot unmarshal value into string field host" rfl⟩

/-- C5 (counterexample): a `POST /mcp/message` without a `sessionId`
query parameter receives HTTP 400 ("Missing sessionId"), not 404. -/
theorem missing_session_id_gets_400 :
    sseHandleMessage testServerConfig unusedExec ["s1"] "POST" ""
      (.ok { jsonrpc := "2.0", id := some (JValue.num 1),
             method := "initialize", params := none })
      = .http 400 [] := by
  rfl

/-- C5 (amended): a `POST /mcp/message` with an absent `sessionId` gets
HTTP 400, and one whose `sessionId` does not identify a registered
session gets HTTP 404. -/
theorem session_lookup_status
    (cfg : ServerConfig) (ex : SSHExec) (sessions : List String)
    (body : Except String MCPRequest) (sid : String)
    (hsid : sid ≠ "") (hunknown : sessions.contains sid = false) :
    sseHandleMessage cfg ex sessions "POST" "" body = .http 400 []
    ∧ sseHandleMessage cfg ex sessions "POST" sid body = .http 404 [] := by
  constructor
  · rfl
  · have hnot : ¬ sid ∈ sessions := by simpa using hunknown
    simp [sseHandleMessage, hsid, hnot]

/-- Witness for `session_lookup_status` with a registry holding one
session and an unknown `sessionId`. -/
theorem session_lookup_status_witness :
    ("deadbeef" : String) ≠ ""
    ∧ (["s1"] : List String).contains "deadbeef" = false
    ∧ (sseHandleMessage testServerConfig unusedExec ["s1"] "POST" ""
        (.ok { jsonrpc := "2.0", id := some (JValue.num 1),
               method := "initialize", params := none }) = .http 400 []
    ∧ sseHandleMessage testServerConfig unusedExec ["s1"] "POST" "deadbeef"
        (.ok { jsonrpc := "2.0", id := some (JValue.num 1),
               method := "initialize", params := none }) = .http 404 []) :=
  ⟨by decide, by decide,
    session_lookup_status testServerConfig unusedExec ["s1"]
      (.ok { jsonrpc := "2.0", id := some (JValue.num 1),
             method := "initialize", params := none })
      "deadbeef" (by decide) (by decide)⟩

/-- `handleSSHExecute` always writes exactly one frame. -/
theorem stdioHandleSSHExecute_ne_nil
    (cfg : ServerConfig) (ex : SSHExec) (id : Option JValue)
    (args : List (String × JValue)) :
    stdioHandleSSHExecute cfg ex id args ≠ [] := by
  unfold stdioHandleSSHExecute
  split
  · simp
  · dsimp only
    split <;> simp

/-- `handleSSHFileTransfer` always writes exactly one frame. -/
theorem stdioHandleSSHFileTransfer_ne_nil
    (cfg : ServerConfig) (id : Option JValue)
    (args : List (String × JValue)) :
    stdioHandleSSHFileTransfer cfg id args ≠ [] := by
  unfold stdioHandleSSHFileTransfer
  split <;> simp

/-- `handleToolsCall` always writes exactly one frame. -/
theorem stdioHandleToolsCall_ne_nil
    (cfg : ServerConfig) (ex : SSHExec) (st : Bool) (req : MCPRequest) :
    stdioHandleToolsCall cfg ex st req ≠ [] := by
  unfold stdioHandleToolsCall
  split
  · simp
  · split
    · simp
    · split
      · exact stdioHandleSSHExecute_ne_nil _ _ _ _
      · exact stdioHandleSSHFileTransfer_ne_nil _ _ _
      · simp

/-- `handleInitialize` always writes exactly one frame. -/
theorem stdioHandleInitialize_ne_nil (cfg : ServerConfig) (req : MCPRequest) :
    stdioHandleInitialize cfg req ≠ [] := by
  unfold stdioHandleInitialize
  split <;> simp

/-- `handleToolsList` always writes exactly one frame. -/
theorem stdioHandleToolsList_ne_nil (st : Bool) (req : MCPRequest) :
    stdioHandleToolsList st req ≠ [] := by
  unfold stdioHandleToolsList
  split <;> simp

/-- C6 (counterexample): an id-less message (a notification) whose
method the stdio server does not recognize still makes it write a
response frame: a `-32601` error with null id. -/
theorem notification_gets_error_frame :
    stdioRouteRequest testServerConfig unusedExec true
      { jsonrpc := "2.0", id := none, method := "foo/bar", params := none }
      = (true, [errorResponse none MethodNotFound "未知方法: foo/bar"]) := by
  rfl

/-- C6 (amended): the HTTP/SSE server never emits a response frame for
an id-less message, whatever its method; on the stdio server only
`notifications/initialized` is silent — every id-less message with any
other method still elicits a response frame (with null id). -/
theorem notification_frames
    (cfg : ServerConfig) (ex : SSHExec) (sessions : List String)
    (sid : String) (req : MCPRequest) (st : Bool) (req2 : MCPRequest)
    (j : String) (pr : Option JValue)
    (hid : req.id = none) (hsid : sid ≠ "")
    (hsess : sessions.contains sid = true)
    (hm2 : req2.method ≠ "notifications/initialized") :
    sseHandleMessage cfg ex sessions "POST" sid (.ok req) = .http 200 []
    ∧ (stdioRouteRequest cfg ex st
        { jsonrpc := j, id := none, method := "notifications/initialized",
          params := pr }).2 = []
    ∧ (stdioRouteRequest cfg ex st req2).2 ≠ [] := by
  refine ⟨?_, rfl, ?_⟩
  · have hmem : sid ∈ sessions := by simpa using hsess
    simp [sseHandleMessage, hsid, hmem, hid]
  · unfold stdioRouteRequest
    split
    · exact stdioHandleInitialize_ne_nil _ _
    · exact stdioHandleToolsList_ne_nil _ _
    · exact stdioHandleToolsCall_ne_nil _ _ _ _
    · simp_all
    · simp

/-- Witness for `notification_frames`: an id-less `tools/list` on the
SSE transport, and an id-less unknown method on stdio. -/
theorem notification_frames_witness :
    ({ jsonrpc := "2.0", id := none, method := "tools/list",
       params := none } : MCPRequest).id = none
    ∧ ("abc" : String) ≠ ""
    ∧ (["abc"] : List String).contains "abc" = true
    ∧ ({ jsonrpc := "2.0", id := none, method := "foo/bar",
         params := none } : MCPRequest).method ≠ "notifications/initialized"
    ∧ (sseHandleMessage testServerConfig unusedExec ["abc"] "POST" "abc"
        (.ok { jsonrpc := "2.0", id := none, method := "tools/list",
               params := none }) = .http 200 []
    ∧ (stdioRouteRequest testServerConfig unusedExec false
        { jsonrpc := "2.0", id := none, method := "notifications/initialized",
          params := none }).2 = []
    ∧ (stdioRouteRequest testServerConfig unusedExec false
        { jsonrpc := "2.0", id := none, method := "foo/bar",
          params := none }).2 ≠ []) :=
  ⟨rfl, by decide, by decide, by decide,
    notification_frames testServerConfig unusedExec ["abc"] "abc"
      { jsonrpc := "2.0", id := none, method := "tools/list", params := none }
      false
      { jsonrpc := "2.0", id := none, method := "foo/bar", params := none }
      "2.0" none rfl (by decide) (by decide) (by decide)⟩

/-- C8: the SSH connection pool never exceeds `max_connections`: every
`Connect` step preserves `size ≤ max_connections` (reuse, lazy eviction
of a dead entry, creation failure, and insert are all covered by the
step), `Close` empties the pool, and a `Connect` that would exceed the
ceiling leaves the pool unchanged and fails with the pool-exhausted
error instead of inserting the freshly created client. -/
theorem pool_never_exceeds_max
    (cfg : SSHClientConfig) (pool : List String) (info : ConnectionInfo)
    (alive : Bool) (create : Except String Unit) :
    (pool.length ≤ cfg.maxConnections →
      (sshConnect cfg pool info alive create).1.length ≤ cfg.maxConnections)
    ∧ (sshClose pool).length = 0
    ∧ (cfg.maxConnections ≤ pool.length → info.port ≠ 0 → info.user ≠ "" →
        pool.contains (connKey info.user info.host info.port) = false →
        sshConnect cfg pool info alive (Except.ok ())
          = (pool, .error ("已达到最大连接数限制: " ++ toString cfg.maxConnections))) := by
  have herase : ∀ key : String,
      (if pool.contains key = true then pool.erase key else pool).length
        ≤ pool.length := by
    intro key
    by_cases hc : pool.contains key = true
    · rw [if_pos hc]
      exact (List.erase_sublist key pool).length_le
    · rw [if_neg hc]
  have hbound : ∀ (key : String), pool.length ≤ cfg.maxConnections →
      (sshConnectWithKey cfg pool key alive create).1.length
        ≤ cfg.maxConnections := by
    intro key hlen
    unfold sshConnectWithKey
    by_cases h1 : (pool.contains key && alive) = true
    · rw [if_pos h1]
      exact hlen
    · rw [if_neg h1]
      dsimp only
      cases create with
      | error e => exact le_trans (herase key) hlen
      | ok u =>
        by_cases h2 : cfg.maxConnections ≤
            (if pool.contains key = true then pool.erase key else pool).length
        · rw [if_pos h2]
          exact le_trans (herase key) hlen
        · rw [if_neg h2]
          have h3 := herase key
          simp only [List.length_append, List.length_cons, List.length_nil]
          omega
  refine ⟨fun hlen => hbound _ hlen, rfl, ?_⟩
  intro hfull hport huser hfresh
  unfold sshConnect
  dsimp only
  rw [if_neg hport, if_neg huser]
  unfold sshConnectWithKey
  rw [hfresh]
  simp only [Bool.false_and, Bool.false_eq_true, if_false]
  rw [if_pos hfull]

/-- Witness for `pool_never_exceeds_max`: a full one-slot pool and a
request for a host not yet pooled. -/
theorem pool_never_exceeds_max_witness :
    (["root@h:22"] : List String).length ≤ onePoolConfig.maxConnections
    ∧ onePoolConfig.maxConnections ≤ (["root@h:22"] : List String).length
    ∧ freshInfo.port ≠ 0
    ∧ freshInfo.user ≠ ""
    ∧ (["root@h:22"] : List String).contains
        (connKey freshInfo.user freshInfo.host freshInfo.port) = false
    ∧ ((sshConnect onePoolConfig ["root@h:22"] freshInfo true
          (Except.ok ())).1.length ≤ onePoolConfig.maxConnections
      ∧ (sshClose ["root@h:22"]).length = 0
      ∧ sshConnect onePoolConfig ["root@h:22"] freshInfo true (Except.ok ())
          = (["root@h:22"],
             .error ("已达到最大连接数限制: " ++ toString onePoolConfig.maxConnections))) :=
  ⟨by decide, by decide, by decide, by decide, by decide,
    (pool_never_exceeds_max onePoolConfig ["root@h:22"] freshInfo true
      (Except.ok ())).1 (by decide),
    (pool_never_exceeds_max onePoolConfig ["root@h:22"] freshInfo true
      (Except.ok ())).2.1,
    (pool_never_exceeds_max onePoolConfig ["root@h:22"] freshInfo true
      (Except.ok ())).2.2 (by decide) (by decide) (by decide) (by decide)⟩

/-- A successful `loadKeyMethod` always yields a public-key method. -/
theorem loadKeyMethod_ok_shape (env : AuthEnv) (kf : String) (m : AuthMethod)
    (h : loadKeyMethod env kf = .ok m) :
    ∃ path, m = AuthMethod.publicKey path := by
  unfold loadKeyMethod at h
  dsimp only at h
  split at h
  · simp at h
  · split at h
    · simp at h
    · split at h
      · simp at h
      · simp only [Except.ok.injEq] at h
        exact ⟨_, h.symm⟩

/-- C9: `getAuthMethods` assembles the methods in exactly the order
password (if the argument is provided), one private key — from the
argument-supplied path if present, else the server-configured path —
then the agent callback (if the agent socket is reachable); and when no
method at all is available it fails with the no-auth-methods error, in
which case `createConnection` never reaches the dial step (its outcome
is independent of the dial result). -/
theorem auth_method_order
    (cfg : SSHClientConfig) (info : ConnectionInfo) (env : AuthEnv)
    (ms : List AuthMethod) (kh d1 d2 : Except String Unit) :
    (getAuthMethods cfg info env = .ok ms →
      (∃ keyPart,
        ms = (if info.password ≠ "" then [AuthMethod.password info.password] else [])
             ++ keyPart
             ++ (if env.agentAvailable then [AuthMethod.agentCallback] else [])
        ∧ (((if info.keyFile = "" then cfg.keyFile else info.keyFile) = ""
              ∧ keyPart = [])
           ∨ (∃ path, keyPart = [AuthMethod.publicKey path]
                ∧ loadKeyMethod env
                    (if info.keyFile = "" then cfg.keyFile else info.keyFile)
                  = .ok (AuthMethod.publicKey path))))
      ∧ ms ≠ [])
    ∧ (info.password = "" →
        (if info.keyFile = "" then cfg.keyFile else info.keyFile) = "" →
        env.agentAvailable = false →
        getAuthMethods cfg info env = .error "没有可用的认证方法"
        ∧ createConnection cfg info env kh d1
          = createConnection cfg info env kh d2) := by
  constructor
  · intro hok
    unfold getAuthMethods at hok
    dsimp only at hok
    by_cases hkf : (if info.keyFile = "" then cfg.keyFile else info.keyFile) = ""
    · rw [if_pos hkf] at hok
      dsimp only at hok
      by_cases hlen :
          (if env.agentAvailable = true then
            (if info.password ≠ "" then [AuthMethod.password info.password] else [])
              ++ [AuthMethod.agentCallback]
          else
            (if info.password ≠ "" then [AuthMethod.password info.password]
             else [])).length = 0
      · rw [if_pos hlen] at hok
        simp at hok
      · rw [if_neg hlen] at hok
        simp only [Except.ok.injEq] at hok
        refine ⟨⟨[], ?_, Or.inl ⟨hkf, rfl⟩⟩, ?_⟩
        · rw [← hok]
          cases hag : env.agentAvailable <;> simp [hag]
        · intro hnil
          exact hlen (by rw [hok, hnil]; rfl)
    · rw [if_neg hkf] at hok
      cases hl : loadKeyMethod env
          (if info.keyFile = "" then cfg.keyFile else info.keyFile) with
      | error e =>
        rw [hl] at hok
        simp at hok
      | ok m =>
        rw [hl] at hok
        dsimp only at hok
        obtain ⟨path, hm⟩ := loadKeyMethod_ok_shape env _ m hl
        subst hm
        by_cases hlen :
            (if env.agentAvailable = true then
              ((if info.password ≠ "" then [AuthMethod.password info.password] else [])
                ++ [AuthMethod.publicKey path]) ++ [AuthMethod.agentCallback]
            else
              (if info.password ≠ "" then [AuthMethod.password info.password] else [])
                ++ [AuthMethod.publicKey path]).length = 0
        · rw [if_pos hlen] at hok
          simp at hok
        · rw [if_neg hlen] at hok
          simp only [Except.ok.injEq] at hok
          refine ⟨⟨[AuthMethod.publicKey path], ?_, Or.inr ⟨path, rfl, ?_⟩⟩, ?_⟩
          · rw [← hok]
            cases hag : env.agentAvailable <;> simp [hag]
          · rfl
          · intro hnil
            exact hlen (by rw [hok, hnil]; rfl)
  · intro hpw hkf hag
    have hgot : getAuthMethods cfg info env = .error "没有可用的认证方法" := by
      unfold getAuthMethods
      dsimp only
      rw [if_pos hkf]
      simp [hpw, hag]
    refine ⟨hgot, ?_⟩
    unfold createConnection
    rw [hgot]

/-- Witness for `auth_method_order`: a password plus explicit key plus
agent environment for the order, and a bare environment for the
no-method failure. -/
theorem auth_method_order_witness :
    getAuthMethods (mkPoolConfig 30) fullAuthInfo richAuthEnv
      = .ok [AuthMethod.password "pw", AuthMethod.publicKey "/k/id_rsa",
             AuthMethod.agentCallback]
    ∧ noAuthInfo.password = ""
    ∧ (if noAuthInfo.keyFile = "" then (mkPoolConfig 30).keyFile
       else noAuthInfo.keyFile) = ""
    ∧ bareAuthEnv.agentAvailable = false
    ∧ ((∃ keyPart,
        [AuthMethod.password "pw", AuthMethod.publicKey "/k/id_rsa",
         AuthMethod.agentCallback]
          = (if fullAuthInfo.password ≠ ""
             then [AuthMethod.password fullAuthInfo.password] else [])
            ++ keyPart
            ++ (if richAuthEnv.agentAvailable then [AuthMethod.agentCallback] else [])
        ∧ (((if fullAuthInfo.keyFile = "" then (mkPoolConfig 30).keyFile
              else fullAuthInfo.keyFile) = "" ∧ keyPart = [])
           ∨ (∃ path, keyPart = [AuthMethod.publicKey path]
                ∧ loadKeyMethod richAuthEnv
                    (if fullAuthInfo.keyFile = "" then (mkPoolConfig 30).keyFile
                     else fullAuthInfo.keyFile)
                  = .ok (AuthMethod.publicKey path))))
      ∧ ([AuthMethod.password "pw", AuthMethod.publicKey "/k/id_rsa",
          AuthMethod.agentCallback] : List AuthMethod) ≠ [])
    ∧ (getAuthMethods (mkPoolConfig 30) noAuthInfo bareAuthEnv
        = .error "没有可用的认证方法"
      ∧ createConnection (mkPoolConfig 30) noAuthInfo bareAuthEnv
          (Except.ok ()) (Except.ok ())
        = createConnection (mkPoolConfig 30) noAuthInfo bareAuthEnv
          (Except.ok ()) (Except.error "dial refused")) :=
  ⟨rfl, rfl, rfl, rfl,
    (auth_method_order (mkPoolConfig 30) fullAuthInfo richAuthEnv
      [AuthMethod.password "pw", AuthMethod.publicKey "/k/id_rsa",
       AuthMethod.agentCallback]
      (Except.ok ()) (Except.ok ()) (Except.ok ())).1 rfl,
    (auth_method_order (mkPoolConfig 30) noAuthInfo bareAuthEnv []
      (Except.ok ()) (Except.ok ()) (Except.error "dial refused")).2
      rfl rfl rfl⟩

end SSHMCP
